import Mathlib

/-!
Verification of the lead-hunter repository's Lead Scoring & Deduplication
Pipeline, shallowly embedded from the Python sources
(`reddit_scraper.py`, `research_agent_v2.py`, `lead_hunter_demo.py`,
`research_agent.py`).  Text is modelled as Lean `String` (a list of
Unicode code points, matching Python `str` semantics for the ASCII data
these functions handle); Python `None`-able strings are `Option String`;
file contents are `String`; the mutable `self.leads` collection is passed
and returned explicitly.
-/

namespace LeadHunter

/-! ## Text primitives -/

/-- Python substring test `needle in hay` on code-point lists. -/
def occursInL : List Char → List Char → Bool
  | n, [] => n.isEmpty
  | n, c :: rest => n.isPrefixOf (c :: rest) || occursInL n rest

/-- Python's `needle in text` substring containment for `str`. -/
def occursIn (needle text : String) : Bool :=
  occursInL needle.data text.data

/-- Python `str.lower()` (the sources only feed ASCII keyword data),
mapping `Char.toLower` over the code points. -/
def pyLower (s : String) : String := ⟨s.data.map Char.toLower⟩

/-- Python string slicing `s[:n]` (by code points). -/
def strTake (n : Nat) (s : String) : String := ⟨s.data.take n⟩

/-- Python `<` on strings: lexicographic comparison of code points. -/
def strLtL : List Char → List Char → Bool
  | [], [] => false
  | [], _ :: _ => true
  | _ :: _, [] => false
  | a :: as, b :: bs =>
    if a.val < b.val then true
    else if b.val < a.val then false
    else strLtL as bs

/-- Python `s < t` for `str` (used by `sorted(..., key=timestamp)`). -/
def strLt (s t : String) : Bool := strLtL s.data t.data

/-- Truthiness of a Python `Optional[str]`: `None` and `""` are falsy. -/
def pyTruthy : Option String → Bool
  | none => false
  | some s => !s.isEmpty

/-! ## Budget extraction — model of the `re.search` calls

`extract_budget` (reddit_scraper.py) and `_extract_budget`
(research_agent_v2.py) try three regex patterns in order over the whole
text and return `match.group(0)` of the first pattern that matches
anywhere.  Each pattern is embedded as a matcher `List Char → Option
(List Char)` that decides whether a match starts at the head of the given
suffix and returns the matched characters, mirroring the backtracking
(leftmost, greedy) semantics of `re.search` for that concrete pattern. -/

def isAsciiDigit (c : Char) : Bool := '0' ≤ c && c ≤ '9'

def isDigitOrComma (c : Char) : Bool := isAsciiDigit c || c == ','

/-- Python `\s` whitespace class (ASCII part). -/
def isPySpace (c : Char) : Bool :=
  c == ' ' || c == '\t' || c == '\n' || c == '\r' || c == '\x0b' || c == '\x0c'

/-- Pattern `\$[\d,]+(?:k)?` (IGNORECASE) matched at the start of `s`:
a literal `$`, then a maximal nonempty run of digits/commas, then an
optional `k`/`K`. -/
def matchDollar : List Char → Option (List Char)
  | '$' :: rest =>
    let ds := rest.takeWhile isDigitOrComma
    if ds.isEmpty then none
    else
      match rest.drop ds.length with
      | k :: _ => if k == 'k' || k == 'K' then some ('$' :: ds ++ [k]) else some ('$' :: ds)
      | [] => some ('$' :: ds)
  | _ => none

/-- Case-insensitive literal match: does `lit` (given lowercase) prefix
`s` up to ASCII case? Returns the matched original characters. -/
def matchLitCI (lit : List Char) (s : List Char) : Option (List Char) :=
  match lit, s with
  | [], _ => some []
  | _ :: _, [] => none
  | l :: ls, c :: cs =>
    if c.toLower == l then (matchLitCI ls cs).map (c :: ·) else none

/-- Pattern `\d+\s*(?:k|thousand)` (IGNORECASE) matched at the start of
`s`: maximal digits, maximal whitespace, then `k` or `thousand`.
(Backtracking the greedy `\d+`/`\s*` cannot help for this pattern: any
shorter run ends on a digit or whitespace character, which can never
begin `k`/`thousand`.) -/
def matchNumScale (s : List Char) : Option (List Char) :=
  let ds := s.takeWhile isAsciiDigit
  if ds.isEmpty then none
  else
    let rest₁ := s.drop ds.length
    let ws := rest₁.takeWhile isPySpace
    let rest₂ := rest₁.drop ws.length
    match matchLitCI ['k'] rest₂ with
    | some m => some (ds ++ ws ++ m)
    | none =>
      match matchLitCI ['t','h','o','u','s','a','n','d'] rest₂ with
      | some m => some (ds ++ ws ++ m)
      | none => none

/-- Helper for the `budget` patterns: after the consumed prefix, try the
greedy alternatives of `(?:of\s*)?(?:is\s*)?` then the tail matcher, in
Python's backtracking order (option taken before option skipped, later
options varying first). -/
def tryOpt (lit : List Char) (s : List Char) (tail : List Char → Option (List Char)) :
    Option (List Char) :=
  match matchLitCI lit s with
  | some m =>
    let rest := s.drop m.length
    let ws := rest.takeWhile isPySpace
    match tail (rest.drop ws.length) with
    | some t => some (m ++ ws ++ t)
    | none => tail s
  | none => tail s

/-- Tail `[\d,]+` with an optional leading `\$?` — pattern 3 of
reddit_scraper.py: `budget\s*(?:of\s*)?(?:is\s*)?\$?[\d,]+`. -/
def tailDollarDigits (s : List Char) : Option (List Char) :=
  match s with
  | '$' :: rest =>
    let ds := rest.takeWhile isDigitOrComma
    if ds.isEmpty then
      -- skipping the optional dollar cannot help: '$' is not a digit/comma
      none
    else some ('$' :: ds)
  | _ =>
    let ds := s.takeWhile isDigitOrComma
    if ds.isEmpty then none else some ds

/-- Tail `[\d$]+` — pattern 3 of research_agent_v2.py:
`budget\s*(?:of\s*)?(?:is\s*)?[\d$]+`. -/
def tailDigitsOrDollar (s : List Char) : Option (List Char) :=
  let ds := s.takeWhile (fun c => isAsciiDigit c || c == '$')
  if ds.isEmpty then none else some ds

/-- The `budget...` pattern with a given final character-class tail,
matched at the start of `s`. -/
def matchBudgetPhrase (tail : List Char → Option (List Char)) (s : List Char) :
    Option (List Char) :=
  match matchLitCI ['b','u','d','g','e','t'] s with
  | none => none
  | some m =>
    let rest := s.drop m.length
    let ws := rest.takeWhile isPySpace
    let afterWs := rest.drop ws.length
    let t :=
      tryOpt ['o','f'] afterWs (fun s₁ =>
        tryOpt ['i','s'] s₁ tail)
    match t with
    | some t' => some (m ++ ws ++ t')
    | none => none

/-- Model of `re.search(pat, text)`: try the matcher at each position, leftmost
first, returning the matched text. -/
def reSearch (m : List Char → Option (List Char)) : List Char → Option (List Char)
  | [] => m []
  | c :: rest =>
    match m (c :: rest) with
    | some r => some r
    | none => reSearch m rest

/-- Function `extract_budget` from reddit_scraper.py: try the three patterns in
order over the whole text, return the first match's `group(0)`. -/
def extract_budget (text : String) : Option String :=
  match reSearch matchDollar text.data with
  | some r => some ⟨r⟩
  | none =>
    match reSearch matchNumScale text.data with
    | some r => some ⟨r⟩
    | none =>
      match reSearch (matchBudgetPhrase tailDollarDigits) text.data with
      | some r => some ⟨r⟩
      | none => none

/-- Function `RedditScanner._extract_budget` and the tweet budget loop from
research_agent_v2.py (`BUDGET_PATTERNS`): same first two patterns, but
the third ends in `[\d$]+`. -/
def extract_budget_v2 (text : String) : Option String :=
  match reSearch matchDollar text.data with
  | some r => some ⟨r⟩
  | none =>
    match reSearch matchNumScale text.data with
    | some r => some ⟨r⟩
    | none =>
      match reSearch (matchBudgetPhrase tailDigitsOrDollar) text.data with
      | some r => some ⟨r⟩
      | none => none

/-! ## Intent, tags, score, design concept (reddit_scraper.py) -/

/-- List `high_keywords` of `determine_intent` and `high_intent` of
`calculate_score` (the same list in reddit_scraper.py). -/
def highKeywords : List String := ["budget", "pay", "hiring", "asap", "urgent", "paid"]

/-- Function `determine_intent(text, budget)` from reddit_scraper.py. -/
def determine_intent (text : String) (budget : Option String) : String :=
  let score : Nat := if pyTruthy budget then 5 else 0
  let score := highKeywords.foldl (fun acc kw => if occursIn kw text then acc + 2 else acc) score
  if 8 ≤ score then "high"
  else if 4 ≤ score then "medium"
  else "low"

/-- Function `generate_tags(text)` from reddit_scraper.py. -/
def generate_tags (text : String) : List String :=
  let t := pyLower text
  let tags : List String :=
    (if occursIn "portfolio" t then ["Portfolio"] else []) ++
    (if occursIn "ecommerce" t || occursIn "shopify" t || occursIn "woocommerce" t then
      ["E-commerce"] else []) ++
    (if occursIn "landing page" t then ["Landing Page"] else []) ++
    (if occursIn "wordpress" t then ["WordPress"] else []) ++
    (if occursIn "react" t then ["React"] else []) ++
    (if occursIn "saas" t then ["SaaS"] else []) ++
    (if occursIn "mvp" t then ["MVP"] else [])
  let tags := if tags.isEmpty then ["Website"] else tags
  tags.take 4

/-- Function `RedditScanner._generate_tags(text)` from research_agent_v2.py (no
`woocommerce` and no `mvp` check). -/
def generate_tags_v2 (text : String) : List String :=
  let t := pyLower text
  let tags : List String :=
    (if occursIn "portfolio" t then ["Portfolio"] else []) ++
    (if occursIn "ecommerce" t || occursIn "shopify" t then ["E-commerce"] else []) ++
    (if occursIn "landing page" t then ["Landing Page"] else []) ++
    (if occursIn "wordpress" t then ["WordPress"] else []) ++
    (if occursIn "react" t then ["React"] else []) ++
    (if occursIn "saas" t then ["SaaS"] else [])
  let tags := if tags.isEmpty then ["Website"] else tags
  tags.take 4

/-- Function `calculate_score(text, budget)` from reddit_scraper.py. -/
def calculate_score (text : String) (budget : Option String) : Nat :=
  let score : Nat := 5
  let score := if pyTruthy budget then score + 5 else score
  let score := highKeywords.foldl (fun acc kw => if occursIn kw text then acc + 3 else acc) score
  min score 25

/-- Function `generate_design_concept(title, text)` from reddit_scraper.py:
nested keyword checks over the lowercased concatenation. -/
def generate_design_concept (title text : String) : String × String :=
  let full := pyLower (title ++ " " ++ text)
  if occursIn "portfolio" full || occursIn "photography" full then
    ("📸", "Gallery-focused layout, lightbox for images, about section, contact form. Clean typography, image-first design.")
  else if occursIn "ecommerce" full || occursIn "shop" full || occursIn "store" full then
    ("🛒", "Product grid layout, shopping cart, checkout flow, payment integration. Mobile-optimized.")
  else if occursIn "saas" full || occursIn "landing page" full then
    ("🚀", "Hero with product demo, feature sections, pricing cards. CTA-focused, conversion optimized.")
  else if occursIn "restaurant" full || occursIn "food" full then
    ("🍽️", "Menu display, reservation system, online ordering. Appetizing imagery.")
  else if occursIn "real estate" full || occursIn "property" full then
    ("🏠", "Property listings, search filters, agent profiles. Professional luxury design.")
  else
    ("💻", "Modern responsive design, clear navigation, strong CTAs, mobile-first approach.")

/-- Function `RedditScanner._generate_design_concept(title, text)` from
research_agent_v2.py: note the extra `designer`/`startup` triggers and
the business/company and personal/blog categories placed BEFORE
restaurant/food and real estate/property. -/
def generate_design_concept_v2 (title text : String) : String × String :=
  let full := pyLower (title ++ " " ++ text)
  if occursIn "portfolio" full || occursIn "photography" full || occursIn "designer" full then
    ("📸", "Gallery-focused layout, lightbox for images, about section, contact form. Clean typography, image-first design.")
  else if occursIn "ecommerce" full || occursIn "shop" full || occursIn "store" full then
    ("🛒", "Product grid layout, shopping cart, checkout flow, payment integration. Mobile-optimized, trust badges.")
  else if occursIn "saas" full || occursIn "landing page" full || occursIn "startup" full then
    ("🚀", "Hero with product demo, feature sections, pricing cards, testimonials. CTA-focused, conversion optimized.")
  else if occursIn "business" full || occursIn "company" full then
    ("🏢", "Professional corporate design, services section, team profiles, contact forms. Trust-building elements.")
  else if occursIn "personal" full || occursIn "blog" full then
    ("✨", "Personal brand focus, blog layout, newsletter signup, social links. Bold typography, unique personality.")
  else if occursIn "restaurant" full || occursIn "food" full then
    ("🍽️", "Menu display, reservation system, location map, online ordering. Appetizing imagery, easy navigation.")
  else if occursIn "real estate" full || occursIn "property" full then
    ("🏠", "Property listings, search filters, map integration, agent profiles. Professional, trustworthy design.")
  else
    ("💻", "Modern responsive design, clear navigation, strong CTAs, fast loading. Mobile-first approach.")

/-- Generic first-match-wins ordered checklist classifier: each table
entry is (trigger keywords, resulting (glyph, notes) pair). -/
def firstConcept (table : List (List String × String × String))
    (dflt : String × String) (full : String) : String × String :=
  match table with
  | [] => dflt
  | (kws, pair) :: rest =>
    if kws.any (fun k => occursIn k full) then pair else firstConcept rest dflt full

/-- The ordered category table realized by reddit_scraper.py's
`generate_design_concept`. -/
def scraperConceptTable : List (List String × String × String) :=
  [ (["portfolio", "photography"],
      ("📸", "Gallery-focused layout, lightbox for images, about section, contact form. Clean typography, image-first design.")),
    (["ecommerce", "shop", "store"],
      ("🛒", "Product grid layout, shopping cart, checkout flow, payment integration. Mobile-optimized.")),
    (["saas", "landing page"],
      ("🚀", "Hero with product demo, feature sections, pricing cards. CTA-focused, conversion optimized.")),
    (["restaurant", "food"],
      ("🍽️", "Menu display, reservation system, online ordering. Appetizing imagery.")),
    (["real estate", "property"],
      ("🏠", "Property listings, search filters, agent profiles. Professional luxury design.")) ]

def scraperConceptDefault : String × String :=
  ("💻", "Modern responsive design, clear navigation, strong CTAs, mobile-first approach.")

/-- The ordered category table realized by research_agent_v2.py's
`_generate_design_concept`. -/
def v2ConceptTable : List (List String × String × String) :=
  [ (["portfolio", "photography", "designer"],
      ("📸", "Gallery-focused layout, lightbox for images, about section, contact form. Clean typography, image-first design.")),
    (["ecommerce", "shop", "store"],
      ("🛒", "Product grid layout, shopping cart, checkout flow, payment integration. Mobile-optimized, trust badges.")),
    (["saas", "landing page", "startup"],
      ("🚀", "Hero with product demo, feature sections, pricing cards, testimonials. CTA-focused, conversion optimized.")),
    (["business", "company"],
      ("🏢", "Professional corporate design, services section, team profiles, contact forms. Trust-building elements.")),
    (["personal", "blog"],
      ("✨", "Personal brand focus, blog layout, newsletter signup, social links. Bold typography, unique personality.")),
    (["restaurant", "food"],
      ("🍽️", "Menu display, reservation system, location map, online ordering. Appetizing imagery, easy navigation.")),
    (["real estate", "property"],
      ("🏠", "Property listings, search filters, map integration, agent profiles. Professional, trustworthy design.")) ]

def v2ConceptDefault : String × String :=
  ("💻", "Modern responsive design, clear navigation, strong CTAs, fast loading. Mobile-first approach.")

/-- The category ORDER asserted by the specification for
`classifyDesignConcept`: portfolio/photography, shop/store/ecommerce,
SaaS/landing-page/startup, restaurant/food, real-estate/property,
business/company, personal/blog, then default.  Modelled from the
spec's words (glyphs only — the spec fixes one glyph per category) to
compare against the source classifiers. -/
def claimConceptGlyph (title body : String) : String :=
  let full := pyLower (title ++ " " ++ body)
  if occursIn "portfolio" full || occursIn "photography" full then "📸"
  else if occursIn "shop" full || occursIn "store" full || occursIn "ecommerce" full then "🛒"
  else if occursIn "saas" full || occursIn "landing page" full || occursIn "startup" full then "🚀"
  else if occursIn "restaurant" full || occursIn "food" full then "🍽️"
  else if occursIn "real estate" full || occursIn "property" full then "🏠"
  else if occursIn "business" full || occursIn "company" full then "🏢"
  else if occursIn "personal" full || occursIn "blog" full then "✨"
  else "💻"

/-! ## Lead data model and builders -/

/-- The canonical Lead record (the `Lead` dataclass of
research_agent_v2.py / the dicts built by reddit_scraper.py). -/
structure Lead where
  id : String
  source : String
  sourceName : String
  title : String
  description : String
  url : String
  author : String
  timestamp : String
  tags : List String
  intent : String
  budget : Option String
  score : Nat
  designMockup : String
  designNotes : String
  contacted : Bool
  notes : String
deriving DecidableEq, Repr

/-- A raw Reddit post as consumed by `scrape_subreddit`
(reddit_scraper.py): the fields read from the JSON endpoint. -/
structure RedditPost where
  id : String
  title : String
  selftext : String
  permalink : String
  author : String
deriving DecidableEq, Repr

/-- The lead dict built inside `scrape_subreddit` (reddit_scraper.py)
for a post that passed the keyword filter; `now` is
`datetime.now().isoformat()`. -/
def scrapeLead (subreddit now : String) (p : RedditPost) : Lead :=
  let full_text := pyLower (p.title ++ " " ++ p.selftext)
  let budget := extract_budget full_text
  let intent := determine_intent full_text budget
  let dc := generate_design_concept p.title p.selftext
  { id := "reddit_" ++ p.id
    source := "reddit"
    sourceName := "r/" ++ subreddit
    title := strTake 100 p.title
    description := if 300 < p.selftext.length then strTake 300 p.selftext ++ "..." else p.selftext
    url := "https://reddit.com" ++ p.permalink
    author := p.author
    timestamp := now
    tags := generate_tags full_text
    intent := intent
    budget := budget
    score := calculate_score full_text budget
    designMockup := dc.1
    designNotes := dc.2
    contacted := false
    notes := "" }

/-- A raw Reddit post as consumed by `RedditScanner._create_lead_from_post`
(research_agent_v2.py); `created` is the ISO form of `created_utc`. -/
structure V2Post where
  id : String
  title : String
  selftext : String
  permalink : String
  author : String
  subreddit : String
  created : String
deriving DecidableEq, Repr

/-- Function `RedditScanner._create_lead_from_post(post, score)` from
research_agent_v2.py.  `post.selftext or post.title` picks the selftext
when non-empty. -/
def createLeadFromPost (p : V2Post) (score : Nat) : Lead :=
  let bodyOrTitle := if p.selftext.isEmpty then p.title else p.selftext
  let budget := extract_budget_v2 bodyOrTitle
  let intent := if 15 ≤ score then "high" else if 10 ≤ score then "medium" else "low"
  let dc := generate_design_concept_v2 p.title p.selftext
  { id := "reddit_" ++ p.id
    source := "reddit"
    sourceName := "r/" ++ p.subreddit
    title := strTake 100 p.title
    description := if 300 < p.selftext.length then strTake 300 p.selftext ++ "..." else p.selftext
    url := "https://reddit.com" ++ p.permalink
    author := p.author
    timestamp := p.created
    tags := generate_tags_v2 bodyOrTitle
    intent := intent
    budget := budget
    score := score
    designMockup := dc.1
    designNotes := dc.2
    contacted := false
    notes := "" }

/-- A raw tweet as consumed by `TwitterScanner._create_lead_from_tweet`
(research_agent_v2.py). -/
structure Tweet where
  id : String
  text : String
  author_id : String
  created_at : String
deriving DecidableEq, Repr

/-- Function `TwitterScanner._create_lead_from_tweet(tweet, score)` from
research_agent_v2.py.  Note the title is `text[:100]` PLUS an ellipsis
when the text is longer than 100 characters. -/
def createLeadFromTweet (t : Tweet) (score : Nat) : Lead :=
  let budget := extract_budget_v2 t.text
  let intent := if 12 ≤ score then "high" else if 8 ≤ score then "medium" else "low"
  let dc := generate_design_concept_v2 t.text ""
  { id := "twitter_" ++ t.id
    source := "twitter"
    sourceName := "Twitter"
    title := strTake 100 t.text ++ (if 100 < t.text.length then "..." else "")
    description := strTake 280 t.text
    url := "https://twitter.com/i/web/status/" ++ t.id
    author := t.author_id
    timestamp := t.created_at
    tags := ["Twitter Lead"]
    intent := intent
    budget := budget
    score := score
    designMockup := dc.1
    designNotes := dc.2
    contacted := false
    notes := "" }

/-! ## Lead Store -/

def leadIds (l : List Lead) : List String := l.map Lead.id

def leadUrls (l : List Lead) : List String := l.map Lead.url

/-- Constant `MAX_LEADS` of research_agent_v2.py. -/
def MAX_LEADS_V2 : Nat := 100

/-- Constant `MAX_LEADS` of reddit_scraper.py and lead_hunter_demo.py. -/
def MAX_LEADS_SCRAPER : Nat := 50

/-- The append loop of `LeadManager.add_leads` (research_agent_v2.py):
the running `existing_ids` set always equals the ids of the current
list, so membership is tested against `leadIds`.  Returns the updated
list and `added_count`. -/
def addLeadsAux : List Lead → List Lead → List Lead × Nat
  | leads, [] => (leads, 0)
  | leads, l :: rest =>
    if l.id ∈ leadIds leads then addLeadsAux leads rest
    else
      let r := addLeadsAux (leads ++ [l]) rest
      (r.1, r.2 + 1)

/-- Stable insertion step for descending sort by `timestamp` (Python
string comparison): the inserted element precedes every element whose
timestamp is not greater, so equal timestamps keep original order. -/
def insertDesc (a : Lead) : List Lead → List Lead
  | [] => [a]
  | b :: l => if strLt a.timestamp b.timestamp then b :: insertDesc a l else a :: b :: l

/-- Model of `sorted(self.leads, key=lambda x: x.get('timestamp',''), reverse=True)`
(research_agent_v2.py `_save_leads`): the unique stable descending sort
by timestamp, realized by right-fold insertion. -/
def sortDesc (l : List Lead) : List Lead := l.foldr insertDesc []

/-- Function `LeadManager.add_leads(new_leads)` followed by its conditional
`_save_leads` (research_agent_v2.py): returns the resulting collection,
`added_count`, and whether the file was rewritten.  `_save_leads` sorts
by timestamp descending and keeps the first `max` entries
(`MAX_LEADS_V2` in the deployed configuration). -/
def add_leads (max : Nat) (leads inc : List Lead) : List Lead × Nat × Bool :=
  let r := addLeadsAux leads inc
  if 0 < r.2 then ((sortDesc r.1).take max, r.2, true) else (leads, r.2, false)

/-- The collection persisted after `add_leads` (research_agent_v2.py). -/
def mergeV2 (max : Nat) (leads inc : List Lead) : List Lead :=
  (add_leads max leads inc).1

/-- The url-dedup loop of `main` (reddit_scraper.py): `existing_urls` is
a growing set seeded from the existing collection; a scraped lead
survives only if its url is new. -/
def filterNewByUrl : List String → List Lead → List Lead
  | _, [] => []
  | seen, l :: rest =>
    if l.url ∈ seen then filterNewByUrl seen rest
    else l :: filterNewByUrl (l.url :: seen) rest

/-- The merge performed by `main` (reddit_scraper.py):
`combined = all_new_leads + existing_leads; combined = combined[:MAX_LEADS]`
(`MAX_LEADS_SCRAPER` in the deployed configuration). -/
def mergeScraper (max : Nat) (existing incoming : List Lead) : List Lead :=
  (filterNewByUrl (leadUrls existing) incoming ++ existing).take max

/-- Shallow embedding of the observable file states during `save_leads`
(reddit_scraper.py) / `LeadManager._save_leads` (research_agent_v2.py):
`open(LEADS_FILE, 'w')` first truncates the file in place (content
becomes empty), then `json.dump` writes the new serialization, so the
visible states are the old content, the empty intermediate, and the new
content.  There is no temp-file-and-rename swap in the source. -/
def saveFileStates (old new : String) : List String := [old, "", new]

/-- A minimal concrete Lead for counterexamples and witnesses. -/
def mkLead (i ts u : String) : Lead :=
  { id := i, source := "reddit", sourceName := "r/webdev", title := "t",
    description := "", url := u, author := "a", timestamp := ts, tags := [],
    intent := "low", budget := none, score := 5, designMockup := "💻",
    designNotes := "", contacted := false, notes := "" }

/-! ## Helper lemmas -/

/-- The keyword-scoring loops (`+= 2` in `determine_intent`, `+= 3` in
`calculate_score`) add the increment once per vocabulary keyword found. -/
theorem foldl_cond_add (p : String → Bool) (c : Nat) (l : List String) :
    ∀ a : Nat, l.foldl (fun acc kw => if p kw then acc + c else acc) a = a + c * l.countP p := by
  induction l with
  | nil => intro a; simp
  | cons kw l ih =>
    intro a
    by_cases h : p kw
    · simp [List.countP_cons, h, ih]; ring
    · simp [List.countP_cons, h, ih]

/-- Closed form of `calculate_score`. -/
theorem calculate_score_closed (text : String) (budget : Option String) :
    calculate_score text budget =
      min (5 + (if pyTruthy budget then 5 else 0) +
        3 * highKeywords.countP (fun kw => occursIn kw text)) 25 := by
  unfold calculate_score
  by_cases h : pyTruthy budget
  · simp [h, foldl_cond_add]
  · simp [h, foldl_cond_add]

theorem insertDesc_perm (a : Lead) : ∀ l : List Lead, (insertDesc a l).Perm (a :: l) := by
  intro l
  induction l with
  | nil => exact List.Perm.refl _
  | cons b m ih =>
    unfold insertDesc
    by_cases h : strLt a.timestamp b.timestamp
    · simpa [h] using (ih.cons b).trans (List.Perm.swap a b m)
    · simp [h]

theorem sortDesc_perm (l : List Lead) : (sortDesc l).Perm l := by
  induction l with
  | nil => exact List.Perm.refl _
  | cons a m ih =>
    have : sortDesc (a :: m) = insertDesc a (sortDesc m) := rfl
    rw [this]
    exact (insertDesc_perm a (sortDesc m)).trans (ih.cons a)

theorem leadIds_append (l : List Lead) (a : Lead) :
    leadIds (l ++ [a]) = leadIds l ++ [a.id] := by
  simp [leadIds]

/-- Unfolding equation of `addLeadsAux` on a non-empty batch. -/
theorem addLeadsAux_cons (leads : List Lead) (a : Lead) (rest : List Lead) :
    addLeadsAux leads (a :: rest) =
      if a.id ∈ leadIds leads then addLeadsAux leads rest
      else ((addLeadsAux (leads ++ [a]) rest).1, (addLeadsAux (leads ++ [a]) rest).2 + 1) := rfl

/-- Ids present before `addLeadsAux` are still present afterwards. -/
theorem addLeadsAux_id_preserve (inc : List Lead) : ∀ (leads : List Lead) (x : String),
    x ∈ leadIds leads → x ∈ leadIds (addLeadsAux leads inc).1 := by
  induction inc with
  | nil => intro leads x hx; exact hx
  | cons l rest ih =>
    intro leads x hx
    unfold addLeadsAux
    by_cases hm : l.id ∈ leadIds leads
    · simpa [hm] using ih leads x hx
    · simp only [hm, if_neg, ite_false]
      exact ih (leads ++ [l]) x (by rw [leadIds_append]; exact List.mem_append_left _ hx)

/-- After `addLeadsAux`, every incoming lead's id is in the collection. -/
theorem addLeadsAux_id_mem (inc : List Lead) : ∀ (leads : List Lead) (l : Lead),
    l ∈ inc → l.id ∈ leadIds (addLeadsAux leads inc).1 := by
  induction inc with
  | nil => intro _ _ h; cases h
  | cons a rest ih =>
    intro leads l hl
    unfold addLeadsAux
    by_cases hm : a.id ∈ leadIds leads
    · rcases List.mem_cons.mp hl with h | h
      · subst h; simpa [hm] using addLeadsAux_id_preserve rest leads l.id hm
      · simpa [hm] using ih leads l h
    · simp only [hm, ite_false]
      rcases List.mem_cons.mp hl with h | h
      · subst h
        exact addLeadsAux_id_preserve rest (leads ++ [l]) l.id
          (by rw [leadIds_append]; exact List.mem_append_right _ (List.mem_singleton_self _))
      · exact ih (leads ++ [a]) l h

/-- When every incoming id is already present, the loop does nothing. -/
theorem addLeadsAux_all_mem (inc : List Lead) : ∀ leads : List Lead,
    (∀ l ∈ inc, l.id ∈ leadIds leads) → addLeadsAux leads inc = (leads, 0) := by
  induction inc with
  | nil => intro leads _; rfl
  | cons a rest ih =>
    intro leads h
    have ha : a.id ∈ leadIds leads := h a (List.mem_cons_self a rest)
    unfold addLeadsAux
    simp only [ha, ite_true]
    exact ih leads (fun l hl => h l (List.mem_cons_of_mem a hl))

/-- If `added_count` is zero, every incoming id was already present. -/
theorem addLeadsAux_count_zero (inc : List Lead) : ∀ leads : List Lead,
    (addLeadsAux leads inc).2 = 0 → ∀ l ∈ inc, l.id ∈ leadIds leads := by
  induction inc with
  | nil => intro _ _ l hl; cases hl
  | cons a rest ih =>
    intro leads h0 l hl
    rw [addLeadsAux_cons] at h0
    by_cases hm : a.id ∈ leadIds leads
    · rw [if_pos hm] at h0
      rcases List.mem_cons.mp hl with h | h
      · subst h; exact hm
      · exact ih leads h0 l h
    · rw [if_neg hm] at h0
      simp at h0

/-- The append loop preserves distinctness of ids. -/
theorem addLeadsAux_nodup (inc : List Lead) : ∀ leads : List Lead,
    (leadIds leads).Nodup → (leadIds (addLeadsAux leads inc).1).Nodup := by
  induction inc with
  | nil => intro _ h; exact h
  | cons a rest ih =>
    intro leads h
    unfold addLeadsAux
    by_cases hm : a.id ∈ leadIds leads
    · simpa [hm] using ih leads h
    · simp only [hm, ite_false]
      refine ih (leads ++ [a]) ?_
      rw [leadIds_append]
      exact h.append (List.nodup_singleton _)
        (fun x hx hx' => hm (by rw [List.mem_singleton.mp hx'] at hx; exact hx))

/-- The url-dedup loop emits leads whose urls are distinct and fresh
with respect to the seen set. -/
theorem filterNewByUrl_nodup_fresh : ∀ (inc : List Lead) (seen : List String),
    (leadUrls (filterNewByUrl seen inc)).Nodup ∧
      ∀ u ∈ leadUrls (filterNewByUrl seen inc), u ∉ seen := by
  intro inc
  induction inc with
  | nil => intro seen; exact ⟨List.nodup_nil, by simp [filterNewByUrl, leadUrls]⟩
  | cons l rest ih =>
    intro seen
    unfold filterNewByUrl
    by_cases hm : l.url ∈ seen
    · simpa [hm] using ih seen
    · simp only [hm, ite_false]
      obtain ⟨h1, h2⟩ := ih (l.url :: seen)
      have hfresh : l.url ∉ leadUrls (filterNewByUrl (l.url :: seen) rest) :=
        fun hc => h2 l.url hc (List.mem_cons_self _ _)
      constructor
      · simpa [leadUrls] using List.Nodup.cons hfresh h1
      · intro u hu
        rcases (by simpa [leadUrls] using hu :
            u = l.url ∨ u ∈ leadUrls (filterNewByUrl (l.url :: seen) rest)) with h | h
        · subst h; exact hm
        · exact fun hc => h2 u h (List.mem_cons_of_mem _ hc)

/-- When the batch's urls are pairwise distinct, the growing-set dedup
loop coincides with a plain filter against the existing urls. -/
theorem filterNewByUrl_eq_filter : ∀ (inc : List Lead) (seen : List String),
    (leadUrls inc).Nodup →
    filterNewByUrl seen inc = inc.filter (fun l => decide (l.url ∉ seen)) := by
  intro inc
  induction inc with
  | nil => intro seen _; rfl
  | cons l rest ih =>
    intro seen h
    have h' : l.url ∉ leadUrls rest ∧ (leadUrls rest).Nodup := by
      rw [show leadUrls (l :: rest) = l.url :: leadUrls rest from rfl] at h
      exact List.nodup_cons.mp h
    obtain ⟨hhead, hrest⟩ := h'
    unfold filterNewByUrl
    by_cases hm : l.url ∈ seen
    · rw [if_pos hm, ih seen hrest, List.filter_cons]
      simp [hm]
    · rw [if_neg hm, ih (l.url :: seen) hrest]
      have hstep : rest.filter (fun x => decide (x.url ∉ l.url :: seen)) =
          rest.filter (fun x => decide (x.url ∉ seen)) := by
        apply List.filter_congr
        intro x hx
        have hne : x.url ≠ l.url :=
          fun he => hhead (he ▸ (List.mem_map.mpr ⟨x, hx, rfl⟩))
        exact decide_eq_decide.mpr (by simp [List.mem_cons, hne])
      have hpos : (l :: rest).filter (fun x => decide (x.url ∉ seen)) =
          l :: rest.filter (fun x => decide (x.url ∉ seen)) := by
        rw [List.filter_cons]
        simp [hm]
      rw [hstep, hpos]

theorem strTake_length_le (n : Nat) (s : String) : (strTake n s).length ≤ n := by
  show (s.data.take n).length ≤ n
  simp [List.length_take]

theorem strLen_append (s t : String) : (s ++ t).length = s.length + t.length := by
  cases s with
  | mk ds =>
    cases t with
    | mk dt => exact List.length_append ds dt

theorem strTake_of_le (n : Nat) (s : String) (h : s.length ≤ n) : strTake n s = s := by
  cases s with
  | mk ds =>
    show (⟨ds.take n⟩ : String) = ⟨ds⟩
    rw [List.take_of_length_le h]

theorem str_append_empty (s : String) : s ++ "" = s := by
  cases s with
  | mk ds =>
    show (⟨ds ++ []⟩ : String) = ⟨ds⟩
    rw [List.append_nil]

theorem generate_tags_take (t : String) : ∃ l : List String, generate_tags t = l.take 4 :=
  ⟨_, rfl⟩

theorem generate_tags_v2_take (t : String) : ∃ l : List String, generate_tags_v2 t = l.take 4 :=
  ⟨_, rfl⟩

/-! ## Claim theorems -/

/-- The scenario input of the specification, already case-folded as the
orchestrator does before calling the extractor. -/
def bakeryText : String := "need a website for my bakery, budget is $400"

/-- C1 (counterexample): on the scenario text, `determine_intent` does
NOT return "high": the accumulator reaches only 5 (budget) + 2 ("budget"
keyword) = 7, below the ≥ 8 threshold. -/
theorem c1_counterexample :
    ¬ determine_intent bakeryText (extract_budget bakeryText) = "high" := by decide

/-- C1 (amended): on the scenario text, `extract_budget` returns
`"$400"`, `determine_intent` returns "medium", and `generate_tags`
returns `["Website"]`. -/
theorem c1_scenario :
    extract_budget bakeryText = some "$400" ∧
    determine_intent bakeryText (extract_budget bakeryText) = "medium" ∧
    generate_tags bakeryText = ["Website"] := by decide

/-- C2 (counterexample): the url-keyed merge of reddit_scraper.py's
`main` can emit two leads with the same id (distinct urls, duplicate
id), even starting from an existing collection (here empty) whose ids
are pairwise distinct. -/
theorem c2_counterexample :
    ¬ (leadIds (mergeScraper MAX_LEADS_SCRAPER []
        [mkLead "reddit_x" "1" "u1", mkLead "reddit_x" "2" "u2"])).Nodup := by decide

/-- C2 (amended): the id-keyed merge (`LeadManager.add_leads`) preserves
pairwise-distinct ids, and the url-keyed scraper merge preserves
pairwise-distinct urls (not ids). -/
theorem c2_merge_nodup :
    (∀ (max : Nat) (existing inc : List Lead), (leadIds existing).Nodup →
      (leadIds (mergeV2 max existing inc)).Nodup) ∧
    (∀ (max : Nat) (existing inc : List Lead), (leadUrls existing).Nodup →
      (leadUrls (mergeScraper max existing inc)).Nodup) := by
  constructor
  · intro max existing inc h
    unfold mergeV2 add_leads
    by_cases hc : 0 < (addLeadsAux existing inc).2
    · simp only [hc, if_true, ite_true]
      have h1 := addLeadsAux_nodup inc existing h
      have h2 : (leadIds (sortDesc (addLeadsAux existing inc).1)).Nodup :=
        (((sortDesc_perm _).map Lead.id).nodup_iff).mpr h1
      have h3 : leadIds ((sortDesc (addLeadsAux existing inc).1).take max) =
          (leadIds (sortDesc (addLeadsAux existing inc).1)).take max := by
        simp [leadIds, List.map_take]
      rw [h3]
      exact h2.sublist (List.take_sublist _ _)
    · simpa [hc] using h
  · intro max existing inc h
    unfold mergeScraper
    obtain ⟨h1, h2⟩ := filterNewByUrl_nodup_fresh inc (leadUrls existing)
    have happ : (leadUrls (filterNewByUrl (leadUrls existing) inc ++ existing)).Nodup := by
      rw [show leadUrls (filterNewByUrl (leadUrls existing) inc ++ existing) =
          leadUrls (filterNewByUrl (leadUrls existing) inc) ++ leadUrls existing from by
        simp [leadUrls]]
      exact h1.append h (fun u hu hu' => h2 u hu hu')
    have h3 : leadUrls ((filterNewByUrl (leadUrls existing) inc ++ existing).take max) =
        (leadUrls (filterNewByUrl (leadUrls existing) inc ++ existing)).take max := by
      simp [leadUrls, List.map_take]
    rw [h3]
    exact happ.sublist (List.take_sublist _ _)

theorem c2_merge_nodup_witness :
    ((leadIds [mkLead "a" "1" "u1"]).Nodup ∧
      (leadIds (mergeV2 100 [mkLead "a" "1" "u1"] [mkLead "b" "2" "u2"])).Nodup) ∧
    ((leadUrls [mkLead "a" "1" "u1"]).Nodup ∧
      (leadUrls (mergeScraper 50 [mkLead "a" "1" "u1"] [mkLead "b" "2" "u2"])).Nodup) :=
  ⟨⟨by decide, c2_merge_nodup.1 100 [mkLead "a" "1" "u1"] [mkLead "b" "2" "u2"] (by decide)⟩,
   ⟨by decide, c2_merge_nodup.2 50 [mkLead "a" "1" "u1"] [mkLead "b" "2" "u2"] (by decide)⟩⟩

/-- C3 (counterexample): in the research_agent_v2.py flow, a surviving
incoming lead whose timestamp is older than the existing leads is placed
AFTER them by the timestamp sort of `_save_leads` — the merge does not
place surviving incoming leads before existing ones. -/
theorem c3_counterexample :
    mergeV2 MAX_LEADS_V2 [mkLead "e" "5" "u1"] [mkLead "n" "1" "u2"] =
      [mkLead "e" "5" "u1", mkLead "n" "1" "u2"] ∧
    mkLead "e" "5" "u1" ≠ mkLead "n" "1" "u2" := by decide

/-- C3 (amended): the reddit_scraper.py merge prepends the surviving
(url-new) incoming leads, in batch order, before the existing collection
and truncates to the configured maximum by dropping the tail; stated as
the equation with a plain filter, valid whenever the batch's urls are
pairwise distinct. -/
theorem c3_scraper_prepend_truncate (max : Nat) (existing inc : List Lead)
    (h : (leadUrls inc).Nodup) :
    mergeScraper max existing inc =
      (inc.filter (fun l => decide (l.url ∉ leadUrls existing)) ++ existing).take max := by
  unfold mergeScraper
  rw [filterNewByUrl_eq_filter inc (leadUrls existing) h]

/-- Witness: the spec scenario — max 2, empty prior collection, three
brand-new leads: exactly the first two of the merged (most-recent-first)
order are kept. -/
theorem c3_scraper_prepend_truncate_witness :
    (leadUrls [mkLead "a" "1" "u1", mkLead "b" "2" "u2", mkLead "c" "3" "u3"]).Nodup ∧
    mergeScraper 2 [] [mkLead "a" "1" "u1", mkLead "b" "2" "u2", mkLead "c" "3" "u3"] =
      [mkLead "a" "1" "u1", mkLead "b" "2" "u2"] :=
  ⟨by decide,
    (c3_scraper_prepend_truncate 2 []
      [mkLead "a" "1" "u1", mkLead "b" "2" "u2", mkLead "c" "3" "u3"] (by decide)).trans
      (by decide)⟩

/-- Tweet with a 101-character text. -/
def tweet101 : Tweet :=
  { id := "t", text := ⟨List.replicate 101 'a'⟩, author_id := "1", created_at := "2025" }

/-- C4 (counterexample): the Twitter builder appends an ellipsis AFTER
truncating the title to 100 characters, producing a 103-character
title. -/
theorem c4_counterexample :
    100 < (createLeadFromTweet tweet101 5).title.length := by decide

/-- C4 (amended): Reddit-built leads (both variants) have title ≤ 100,
description ≤ 303 (= 300 + ellipsis) with the ellipsis added only when
the selftext exceeds 300 characters, and at most 4 tags; Twitter-built
leads have title ≤ 103 (text truncated to 100 plus ellipsis only when
the text exceeds 100 characters), description ≤ 280, and exactly one
tag. -/
theorem c4_builder_bounds :
    (∀ (sub now : String) (p : RedditPost),
      (scrapeLead sub now p).title.length ≤ 100 ∧
      (scrapeLead sub now p).description.length ≤ 303 ∧
      (p.selftext.length ≤ 300 → (scrapeLead sub now p).description = p.selftext) ∧
      (scrapeLead sub now p).tags.length ≤ 4) ∧
    (∀ (p : V2Post) (score : Nat),
      (createLeadFromPost p score).title.length ≤ 100 ∧
      (createLeadFromPost p score).description.length ≤ 303 ∧
      (p.selftext.length ≤ 300 → (createLeadFromPost p score).description = p.selftext) ∧
      (createLeadFromPost p score).tags.length ≤ 4) ∧
    (∀ (t : Tweet) (score : Nat),
      (createLeadFromTweet t score).title.length ≤ 103 ∧
      (t.text.length ≤ 100 → (createLeadFromTweet t score).title = t.text) ∧
      (createLeadFromTweet t score).description.length ≤ 280 ∧
      (createLeadFromTweet t score).tags.length = 1) := by
  refine ⟨fun sub now p => ⟨?_, ?_, ?_, ?_⟩, fun p score => ⟨?_, ?_, ?_, ?_⟩,
    fun t score => ⟨?_, ?_, ?_, ?_⟩⟩
  · exact strTake_length_le 100 p.title
  · show (if 300 < p.selftext.length then strTake 300 p.selftext ++ "..." else p.selftext).length ≤ 303
    by_cases h : 300 < p.selftext.length
    · rw [if_pos h, strLen_append]
      have := strTake_length_le 300 p.selftext
      have h3 : ("..." : String).length = 3 := by decide
      omega
    · rw [if_neg h]; omega
  · intro h
    show (if 300 < p.selftext.length then strTake 300 p.selftext ++ "..." else p.selftext) = p.selftext
    rw [if_neg (by omega)]
  · show (generate_tags (pyLower (p.title ++ " " ++ p.selftext))).length ≤ 4
    obtain ⟨l, hl⟩ := generate_tags_take (pyLower (p.title ++ " " ++ p.selftext))
    rw [hl]; simp [List.length_take]
  · exact strTake_length_le 100 p.title
  · show (if 300 < p.selftext.length then strTake 300 p.selftext ++ "..." else p.selftext).length ≤ 303
    by_cases h : 300 < p.selftext.length
    · rw [if_pos h, strLen_append]
      have := strTake_length_le 300 p.selftext
      have h3 : ("..." : String).length = 3 := by decide
      omega
    · rw [if_neg h]; omega
  · intro h
    show (if 300 < p.selftext.length then strTake 300 p.selftext ++ "..." else p.selftext) = p.selftext
    rw [if_neg (by omega)]
  · show (generate_tags_v2 (if p.selftext.isEmpty then p.title else p.selftext)).length ≤ 4
    obtain ⟨l, hl⟩ := generate_tags_v2_take (if p.selftext.isEmpty then p.title else p.selftext)
    rw [hl]; simp [List.length_take]
  · show (strTake 100 t.text ++ (if 100 < t.text.length then "..." else "")).length ≤ 103
    rw [strLen_append]
    have := strTake_length_le 100 t.text
    by_cases h : 100 < t.text.length
    · rw [if_pos h]
      have h3 : ("..." : String).length = 3 := by decide
      omega
    · rw [if_neg h]
      have h0 : ("" : String).length = 0 := by decide
      omega
  · intro h
    show strTake 100 t.text ++ (if 100 < t.text.length then "..." else "") = t.text
    rw [if_neg (by omega), str_append_empty]
    exact strTake_of_le 100 t.text h
  · exact strTake_length_le 280 t.text
  · rfl

theorem c4_builder_bounds_witness :
    (({ id := "p1", title := "Need a site", selftext := "short body",
        permalink := "/r/webdev/1", author := "u" } : RedditPost).selftext.length ≤ 300 ∧
      (scrapeLead "webdev" "2025-01-01"
        { id := "p1", title := "Need a site", selftext := "short body",
          permalink := "/r/webdev/1", author := "u" }).description = "short body") ∧
    (({ id := "t1", text := "need a website", author_id := "42",
        created_at := "2025-01-01" } : Tweet).text.length ≤ 100 ∧
      (createLeadFromTweet
        { id := "t1", text := "need a website", author_id := "42",
          created_at := "2025-01-01" } 5).title = "need a website") :=
  ⟨⟨by decide,
    (c4_builder_bounds.1 "webdev" "2025-01-01"
      { id := "p1", title := "Need a site", selftext := "short body",
        permalink := "/r/webdev/1", author := "u" }).2.2.1 (by decide)⟩,
   ⟨by decide,
    (c4_builder_bounds.2.2
      { id := "t1", text := "need a website", author_id := "42",
        created_at := "2025-01-01" } 5).2.1 (by decide)⟩⟩

/-- C5: the in-place overwrite of `save_leads` / `_save_leads`
(`open(LEADS_FILE, 'w')` then `json.dump`) passes through an
intermediate file state — the truncated empty file — that is neither the
complete previous content nor the complete new content, so the write is
not all-or-nothing. -/
theorem c5_save_not_atomic :
    "" ∈ saveFileStates "[]" "[1]" ∧ "" ≠ "[]" ∧ ("" : String) ≠ "[1]" := by decide

/-- C6: `calculate_score` equals base 5, plus 5 when a (truthy) budget
is present, plus 3 for each vocabulary keyword occurring in the text,
capped at 25; its output never exceeds 25 (and, being a count, is never
below 0). -/
theorem c6_computeScore_formula (text : String) (budget : Option String) :
    calculate_score text budget =
      min (5 + (if pyTruthy budget then 5 else 0) +
        3 * highKeywords.countP (fun kw => occursIn kw text)) 25 ∧
    calculate_score text budget ≤ 25 :=
  ⟨calculate_score_closed text budget, by rw [calculate_score_closed]; omega⟩

/-- C7 (counterexample): at the deployed maximum (`MAX_LEADS_V2 = 100`),
merging the same batch twice is NOT a no-op: the first merge truncates
away the existing lead with id "x", so the incoming lead with duplicate
id "x" (skipped the first time) is admitted on the second merge and
changes the collection. -/
theorem c7_counterexample :
    mergeV2 MAX_LEADS_V2
        (mergeV2 MAX_LEADS_V2
          ((List.range 99).map (fun i => mkLead ("e" ++ toString i) "5" ("ue" ++ toString i)) ++
            [mkLead "x" "1" "ux"])
          [mkLead "x" "9" "uy", mkLead "z" "7" "uz"])
        [mkLead "x" "9" "uy", mkLead "z" "7" "uz"] ≠
      mergeV2 MAX_LEADS_V2
        ((List.range 99).map (fun i => mkLead ("e" ++ toString i) "5" ("ue" ++ toString i)) ++
          [mkLead "x" "1" "ux"])
        [mkLead "x" "9" "uy", mkLead "z" "7" "uz"] := by decide

/-- C7 (amended): when the first merge does not truncate (the appended
collection fits within the configured maximum), a second `add_leads`
with the same incoming batch is a no-op: it adds 0 leads, performs no
save, and leaves the collection unchanged. -/
theorem c7_merge_idempotent_no_truncation (max : Nat) (leads inc : List Lead)
    (h : (addLeadsAux leads inc).1.length ≤ max) :
    add_leads max (mergeV2 max leads inc) inc = (mergeV2 max leads inc, 0, false) := by
  by_cases hc : 0 < (addLeadsAux leads inc).2
  · have hL : mergeV2 max leads inc = sortDesc (addLeadsAux leads inc).1 := by
      unfold mergeV2 add_leads
      simp only [hc, if_true, ite_true]
      exact List.take_of_length_le (by rw [(sortDesc_perm _).length_eq]; exact h)
    have hall : ∀ l ∈ inc, l.id ∈ leadIds (mergeV2 max leads inc) := by
      intro l hl
      rw [hL]
      exact ((sortDesc_perm _).map Lead.id).mem_iff.mpr (addLeadsAux_id_mem inc leads l hl)
    unfold add_leads
    rw [addLeadsAux_all_mem inc _ hall]
    simp
  · have h0 : (addLeadsAux leads inc).2 = 0 := by omega
    have hL : mergeV2 max leads inc = leads := by
      unfold mergeV2 add_leads; simp [h0]
    have hall : ∀ l ∈ inc, l.id ∈ leadIds (mergeV2 max leads inc) := by
      rw [hL]; exact addLeadsAux_count_zero inc leads h0
    unfold add_leads
    rw [addLeadsAux_all_mem inc _ hall]
    simp

theorem c7_merge_idempotent_no_truncation_witness :
    (addLeadsAux [] [mkLead "a" "1" "u1"]).1.length ≤ 100 ∧
    add_leads 100 (mergeV2 100 [] [mkLead "a" "1" "u1"]) [mkLead "a" "1" "u1"] =
      (mergeV2 100 [] [mkLead "a" "1" "u1"], 0, false) :=
  ⟨by decide, c7_merge_idempotent_no_truncation 100 [] [mkLead "a" "1" "u1"] (by decide)⟩

/-- C8 (counterexample): the source classifiers do not follow the
claimed category order: for "restaurant business" the claimed order
(restaurant/food before business/company) yields the menu glyph, but
research_agent_v2.py checks business/company FIRST and returns the
corporate glyph; and for "business" reddit_scraper.py has no
business/company category at all and falls through to the default. -/
theorem c8_counterexample :
    claimConceptGlyph "" "restaurant business" = "🍽️" ∧
    (generate_design_concept_v2 "" "restaurant business").1 = "🏢" ∧
    claimConceptGlyph "" "business" = "🏢" ∧
    (generate_design_concept "" "business").1 = "💻" := by decide

/-- C8 (amended): each variant IS an ordered first-match-wins checklist
over the lowercased concatenated text with fixed per-category
(glyph, notes) pairs, but with per-variant tables and order:
reddit_scraper.py checks portfolio/photography, ecommerce/shop/store,
saas/landing-page, restaurant/food, real-estate/property, default;
research_agent_v2.py checks portfolio/photography/designer,
ecommerce/shop/store, saas/landing-page/startup, business/company,
personal/blog, restaurant/food, real-estate/property, default. -/
theorem c8_first_match_tables (title text : String) :
    generate_design_concept title text =
      firstConcept scraperConceptTable scraperConceptDefault (pyLower (title ++ " " ++ text)) ∧
    generate_design_concept_v2 title text =
      firstConcept v2ConceptTable v2ConceptDefault (pyLower (title ++ " " ++ text)) := by
  constructor
  · simp only [generate_design_concept, firstConcept, scraperConceptTable,
      scraperConceptDefault, List.any_cons, List.any_nil, Bool.or_false, Bool.or_assoc]
  · simp only [generate_design_concept_v2, firstConcept, v2ConceptTable,
      v2ConceptDefault, List.any_cons, List.any_nil, Bool.or_false, Bool.or_assoc]

/-- C9: `calculate_score` always returns at least the base value 5 (so
its range is [5, 25] and a score of 0 is unreachable), and at most
25. -/
theorem c9_score_at_least_base (text : String) (budget : Option String) :
    5 ≤ calculate_score text budget ∧ calculate_score text budget ≤ 25 := by
  rw [calculate_score_closed]
  by_cases h : pyTruthy budget
  · simp only [h, if_true, ite_true]; omega
  · simp only [h, if_false, ite_false]; omega

/-- C10: when every incoming lead's id is already present in the
collection, `add_leads` returns 0, performs no save, and leaves the
collection exactly as it was (no reordering, no re-truncation). -/
theorem c10_all_duplicates_noop (max : Nat) (leads inc : List Lead)
    (h : ∀ l ∈ inc, l.id ∈ leadIds leads) :
    add_leads max leads inc = (leads, 0, false) := by
  unfold add_leads
  rw [addLeadsAux_all_mem inc leads h]
  simp

theorem c10_all_duplicates_noop_witness :
    (∀ l ∈ [mkLead "a" "9" "u2"], l.id ∈ leadIds [mkLead "a" "1" "u1"]) ∧
    add_leads 100 [mkLead "a" "1" "u1"] [mkLead "a" "9" "u2"] =
      ([mkLead "a" "1" "u1"], 0, false) :=
  ⟨by decide, c10_all_duplicates_noop 100 [mkLead "a" "1" "u1"] [mkLead "a" "9" "u2"] (by decide)⟩

end LeadHunter
